import Mathlib

/-!
# VoiceCheck core engine — formal model and verification

The repository under verification ("Character Voice Consistency Checker")
ships only its end-to-end Playwright tests, a Makefile, a README and a
frontend stub; the Python analysis engine (Segmenter, Character Resolver,
Dialogue Extractor, Voice Profiler, Consistency Scorer) is not part of the
available sources.  Every definition of the engine below is therefore
modelled from the specification's own words, and the theorems settle the
spec's claims against that model.
-/

set_option maxRecDepth 8192

namespace VoiceCheck

/-! ## Character-level utilities -/

/-- The ASCII apostrophe character (used inside contractions). -/
def apos : Char := Char.ofNat 39

/-- Whitespace characters recognised when trimming input. -/
def isWS (c : Char) : Bool := c == ' ' || c == '\n' || c == '\t' || c == '\r'

def isUpperAZ (c : Char) : Bool := 'A' ≤ c && c ≤ 'Z'

def isLowerAZ (c : Char) : Bool := 'a' ≤ c && c ≤ 'z'

def isAlpha (c : Char) : Bool := isUpperAZ c || isLowerAZ c

def isDigitC (c : Char) : Bool := '0' ≤ c && c ≤ '9'

def toLowerC (c : Char) : Char :=
  if isUpperAZ c then Char.ofNat (c.toNat + 32) else c

/-- A character that may occur inside a word token (letters and the
apostrophe, so contractions stay one token). -/
def isWordChar (c : Char) : Bool := isAlpha c || c == apos

/-- A text fragment is blank when it is empty after trimming whitespace,
i.e. when every character is whitespace. -/
def isBlank (cs : List Char) : Bool := cs.all isWS

def trimChars (cs : List Char) : List Char :=
  ((cs.dropWhile isWS).reverse.dropWhile isWS).reverse

def lowerWord (w : List Char) : List Char := w.map toLowerC

/-! ## Data model -/

/-- Modelled from the spec: severity of a consistency flag,
`severity ∈ {low, medium, high}` (engine source missing from the repo). -/
inductive Severity where
  | low
  | medium
  | high
deriving DecidableEq

/-- Modelled from the spec: per-severity penalty weight
(low=2, medium=5, high=10) (engine source missing from the repo). -/
def Severity.weight : Severity → Nat
  | .low => 2
  | .medium => 5
  | .high => 10

/-- Modelled from the spec: the fixed closed enumeration of exactly four
stylistic dimensions (engine source missing from the repo). -/
inductive Dimension where
  | vocabulary_level
  | sentence_structure
  | verbal_tics
  | formality
deriving DecidableEq

def allDimensions : List Dimension :=
  [.vocabulary_level, .sentence_structure, .verbal_tics, .formality]

/-- Numeric code of a dimension, used to build comparable flag keys. -/
def Dimension.idx : Dimension → Nat
  | .vocabulary_level => 0
  | .sentence_structure => 1
  | .verbal_tics => 2
  | .formality => 3

/-- Modelled from the spec: a `Location` is a stable
(chapter index, paragraph index) pair (engine source missing from the repo). -/
structure Location where
  chapter : Nat
  paragraph : Nat
deriving DecidableEq

/-- Modelled from the spec: a `ConsistencyFlag` carries id, owning character
id, dimension, severity, Location, verbatim passage and a `dismissed`
boolean defaulting to false (engine source missing from the repo). -/
structure ConsistencyFlag where
  id : Nat
  characterId : String
  dimension : Dimension
  severity : Severity
  location : Location
  passage : String
  dismissed : Bool := false
deriving DecidableEq

/-! ## Scoring layer -/

/-- Modelled from the spec: a flag is active when `dismissed = false`;
only active flags of the given character enter the penalty. -/
def flagActiveFor (c : String) (f : ConsistencyFlag) : Bool :=
  f.characterId == c && !f.dismissed

/-- Modelled from the spec: `penalty` sums the per-severity weight over the
character's flags with `dismissed = false` (engine source missing). -/
def penalty (flags : List ConsistencyFlag) (c : String) : Nat :=
  (flags.filter (flagActiveFor c)).foldr (fun f acc => f.severity.weight + acc) 0

/-- Modelled from the spec: `Score = 100 − penalty(active flags)`, clamped
at 0 (engine source missing from the repo). -/
def score (flags : List ConsistencyFlag) (c : String) : Int :=
  max ((100 : Int) - (penalty flags c : Int)) 0

/-- Modelled from the spec: the state mutation behind
`dismiss_flag(flag_id, dismissed)` — set the `dismissed` field of the flag
with the given id, touching nothing else (engine source missing). -/
def setDismissed (flags : List ConsistencyFlag) (fid : Nat) (b : Bool) :
    List ConsistencyFlag :=
  flags.map (fun f => if f.id == fid then { f with dismissed := b } else f)

/-- Modelled from the spec: `dismiss_flag(flag_id, dismissed) -> updated
Score for the flag's character` — idempotent toggle plus recompute. -/
def dismiss_flag (flags : List ConsistencyFlag) (fid : Nat) (b : Bool)
    (c : String) : List ConsistencyFlag × Int :=
  let flags' := setDismissed flags fid b
  (flags', score flags' c)

/-- Modelled from the spec: dismissing every flag of one character
(each `dismiss_flag(·, true)` call goes through `setDismissed`). -/
def dismissAllFor (flags : List ConsistencyFlag) (c : String) :
    List ConsistencyFlag :=
  flags.map (fun f => if f.characterId == c then { f with dismissed := true } else f)

/-- Modelled from the spec: an arbitrary interactive session is a sequence
of dismiss/undismiss toggles applied to the flag set. -/
def applyToggles (toggles : List (Nat × Bool)) (flags : List ConsistencyFlag) :
    List ConsistencyFlag :=
  toggles.foldl (fun fs t => setDismissed fs t.1 t.2) flags

/-! ## Segmenter -/

def splitLinesAux : List Char → List Char → List (List Char)
  | [], cur => [cur.reverse]
  | c :: rest, cur =>
      if c == '\n' then cur.reverse :: splitLinesAux rest []
      else splitLinesAux rest (c :: cur)

def splitLines (cs : List Char) : List (List Char) := splitLinesAux cs []

/-- Modelled from the spec: chapter boundaries are recognised by a
case-insensitive heading pattern, a line equal to "Chapter N". -/
def isChapterHeading (l : List Char) : Bool :=
  let t := lowerWord (trimChars l)
  let pre := "chapter ".data
  t.take pre.length == pre &&
    (t.drop pre.length ≠ [] && (t.drop pre.length).all isDigitC)

def chapterGroups (lines : List (List Char)) : List (List (List Char)) :=
  let st := lines.foldl
    (fun (st : List (List (List Char)) × List (List Char)) l =>
      if isChapterHeading l then (st.1 ++ [st.2], []) else (st.1, st.2 ++ [l]))
    ([], [])
  st.1 ++ [st.2]

/-- Modelled from the spec: text lacking any recognised heading becomes a
single implicit chapter; blank text before the first heading is no chapter. -/
def chapterBodies (lines : List (List Char)) : List (List (List Char)) :=
  match chapterGroups lines with
  | [] => []
  | g :: gs => if gs ≠ [] && g.all isBlank then gs else g :: gs

/-- Modelled from the spec: paragraphs are blank-line delimited groups of
consecutive non-blank lines. -/
def paragraphGroups (ls : List (List Char)) : List (List (List Char)) :=
  let st := ls.foldl
    (fun (st : List (List (List Char)) × List (List Char)) l =>
      if isBlank l then (if st.2.isEmpty then st else (st.1 ++ [st.2], []))
      else (st.1, st.2 ++ [l]))
    ([], [])
  if st.2.isEmpty then st.1 else st.1 ++ [st.2]

def joinLines : List (List Char) → List Char
  | [] => []
  | [l] => l
  | l :: ls => l ++ ' ' :: joinLines ls

/-- Modelled from the spec: a `Paragraph` is its chapter index and paragraph
index (together a stable Location) plus its raw text. -/
structure Paragraph where
  loc : Location
  text : List Char
deriving DecidableEq

/-- Modelled from the spec: the Segmenter splits raw manuscript text into an
ordered sequence of chapters and paragraphs. -/
def paragraphsOf (cs : List Char) : List Paragraph :=
  let chs := chapterBodies (splitLines cs)
  (chs.enum.map (fun p =>
    ((paragraphGroups p.2).enum.map (fun q =>
      ({ loc := ⟨p.1, q.1⟩, text := joinLines q.2 } : Paragraph))))).flatten

/-! ## Dialogue Extractor and Character Resolver -/

/-- Modelled from the spec: the resolved speaker of a span is a character id
or explicitly "unresolved". -/
inductive Speaker where
  | character (id : String)
  | unresolved
deriving DecidableEq

/-- Modelled from the spec: a `DialogueSpan` is the verbatim quoted text,
start/end character offsets within the paragraph, and the resolved speaker. -/
structure DialogueSpan where
  loc : Location
  text : List Char
  startOff : Nat
  endOff : Nat
  speaker : Speaker
deriving DecidableEq

/-- A quoted span before speaker resolution. -/
structure RawSpan where
  text : List Char
  startOff : Nat
  endOff : Nat
deriving DecidableEq

def isQuoteChar (c : Char) : Bool := c == '"' || c == '“' || c == '”'

/-- Modelled from the spec: balanced-quote scan over one paragraph, returning
the quoted spans (with offsets) and the narration text outside quotes. -/
def scanParaAux : List Char → Nat → Option (Nat × List Char) →
    List RawSpan × List Char
  | [], _, _ => ([], [])
  | c :: rest, off, none =>
      if isQuoteChar c then scanParaAux rest (off + 1) (some (off, []))
      else
        let r := scanParaAux rest (off + 1) none
        (r.1, c :: r.2)
  | c :: rest, off, some st =>
      if isQuoteChar c then
        let r := scanParaAux rest (off + 1) none
        (⟨st.2.reverse, st.1, off⟩ :: r.1, r.2)
      else scanParaAux rest (off + 1) (some (st.1, c :: st.2))

def scanPara (cs : List Char) : List RawSpan × List Char := scanParaAux cs 0 none

def tokenizeAux : List Char → List Char → List (List Char)
  | [], cur => if cur.isEmpty then [] else [cur.reverse]
  | c :: rest, cur =>
      if isWordChar c then tokenizeAux rest (c :: cur)
      else if cur.isEmpty then tokenizeAux rest []
      else cur.reverse :: tokenizeAux rest []

def tokenize (cs : List Char) : List (List Char) := tokenizeAux cs []

/-- Modelled from the spec: the closed set of attribution verbs
(said/asked/replied/whispered/exclaimed). -/
def attributionVerbs : List (List Char) :=
  ["said".data, "asked".data, "replied".data, "whispered".data,
   "exclaimed".data]

def isCapitalized : List Char → Bool
  | [] => false
  | c :: _ => isUpperAZ c

/-- Modelled from the spec: an explicit attribution tag is a capitalized
name token adjacent to an attribution verb in the narration. -/
def findAttribution : List (List Char) → Option (List Char)
  | t1 :: t2 :: rest =>
      if isCapitalized t1 && attributionVerbs.contains (lowerWord t2) then
        some t1
      else if attributionVerbs.contains (lowerWord t1) && isCapitalized t2 then
        some t2
      else findAttribution (t2 :: rest)
  | _ => none

/-- Modelled from the spec: speaker resolution per paragraph, in priority
order (1) explicit attribution tag in the same paragraph, (2) the most
recently resolved speaker from the same or immediately preceding paragraph,
(3) unresolved.  The carried state is the last resolved speaker with the
global index of its paragraph. -/
def attributeParas : Nat → Option (String × Nat) → List Paragraph →
    List DialogueSpan
  | _, _, [] => []
  | i, last, p :: ps =>
      let sc := scanPara p.text
      let tag := findAttribution (tokenize sc.2)
      let resolved : Option String :=
        match tag with
        | some w => some (String.mk w)
        | none =>
            match last with
            | some sj => if !sc.1.isEmpty && i ≤ sj.2 + 1 then some sj.1 else none
            | none => none
      let mkSpan : RawSpan → DialogueSpan := fun r =>
        { loc := p.loc, text := r.text, startOff := r.startOff,
          endOff := r.endOff,
          speaker :=
            match resolved with
            | some s => Speaker.character s
            | none => Speaker.unresolved }
      let last' : Option (String × Nat) :=
        match resolved with
        | some s => some (s, i)
        | none => last
      sc.1.map mkSpan ++ attributeParas (i + 1) last' ps

/-- The ids of all resolved speakers, in span order. -/
def spanSpeakers (spans : List DialogueSpan) : List String :=
  spans.filterMap (fun sp =>
    match sp.speaker with
    | .character s => some s
    | .unresolved => none)

/-! ## Voice Profiler -/

def letterCount (w : List Char) : Nat := (w.filter isAlpha).length

/-- Modelled from the spec: closed set of slang tokens for the formality
index (a clearly anomalous register shift, e.g. slang interjection). -/
def slangTokens : List (List Char) :=
  ["yo".data, "dude".data, "dudes".data, "rad".data, "totally".data,
   "gonna".data, "wanna".data, "yeah".data]

/-- Modelled from the spec: closed set of filler/tic tokens for the
verbal_tics frequency table. -/
def ticTokens : List (List Char) :=
  ["well".data, "um".data, "uh".data, "oh".data, "hmm".data, "er".data,
   "ah".data]

/-- Modelled from the spec: average syllable complexity for
vocabulary_level, approximated by average word length (scaled by 10). -/
def vocabMetric (l : List Char) : Nat :=
  let ws := tokenize l
  if ws.length == 0 then 0 else 10 * (ws.map letterCount).sum / ws.length

/-- Modelled from the spec: average clause count for sentence_structure
(clauses separated by commas/semicolons, scaled by 10). -/
def clauseMetric (l : List Char) : Nat :=
  10 * (1 + (l.filter (fun c => c == ',' || c == ';')).length)

/-- Modelled from the spec: frequency of filler/tic tokens for verbal_tics
(per 100 words). -/
def ticsMetric (l : List Char) : Nat :=
  let ws := (tokenize l).map lowerWord
  if ws.length == 0 then 0
  else 100 * (ws.filter (fun w => ticTokens.contains w)).length / ws.length

/-- Modelled from the spec: a formality index from the contraction/slang
ratio of a line (per 100 words, slang weighted double). -/
def formalityMetric (l : List Char) : Nat :=
  let ws := (tokenize l).map lowerWord
  if ws.length == 0 then 0
  else
    let slangs := (ws.filter (fun w => slangTokens.contains w)).length
    let contractions := (ws.filter (fun w => w.contains apos)).length
    100 * (2 * slangs + contractions) / ws.length

/-- Per-dimension line metric. -/
def metric : Dimension → List Char → Nat
  | .vocabulary_level, l => vocabMetric l
  | .sentence_structure, l => clauseMetric l
  | .verbal_tics, l => ticsMetric l
  | .formality, l => formalityMetric l

/-- Modelled from the spec: engine configuration — the minimum number of
attributed lines for profiling (default 3) and the per-dimension deviation
thresholds, defaults calibrated so a slang interjection flags high. -/
structure Config where
  minLines : Nat := 3
  vocabThreshold : Nat := 25
  sentenceThreshold : Nat := 30
  ticsThreshold : Nat := 40
  formalityThreshold : Nat := 20
deriving DecidableEq

def defaultConfig : Config := {}

def threshold (cfg : Config) : Dimension → Nat
  | .vocabulary_level => cfg.vocabThreshold
  | .sentence_structure => cfg.sentenceThreshold
  | .verbal_tics => cfg.ticsThreshold
  | .formality => cfg.formalityThreshold

/-- Modelled from the spec: a dimension baseline is a summary statistic
derived from the character's full dialogue set — the mean line metric. -/
def metricMean (d : Dimension) (lines : List (List Char)) : Nat :=
  let xs := lines.map (metric d)
  if xs.length == 0 then 0 else xs.sum / xs.length

/-- Absolute deviation of a line metric from the baseline. -/
def absDev (x b : Nat) : Nat := if b ≤ x then x - b else b - x

/-- Modelled from the spec: severity mapping — deviation in
[threshold, 2×threshold) is low, [2×threshold, 3×threshold) medium,
at least 3×threshold high; below threshold no flag. -/
def severityFor (t dev : Nat) : Option Severity :=
  if 3 * t ≤ dev then some .high
  else if 2 * t ≤ dev then some .medium
  else if t ≤ dev then some .low
  else none

/-- The spans attributed to one character. -/
def spansFor (spans : List DialogueSpan) (c : String) : List DialogueSpan :=
  spans.filter (fun sp => decide (sp.speaker = Speaker.character c))

/-- Modelled from the spec: one dimension baseline retains the baseline
statistic plus up to 5 representative quotes. -/
structure DimensionProfile where
  baseline : Nat
  quotes : List (List Char)
deriving DecidableEq

/-- Modelled from the spec: a `VoiceProfile` holds a baseline descriptor for
each of the four dimensions. -/
structure VoiceProfile where
  vocab : DimensionProfile
  sentence : DimensionProfile
  tics : DimensionProfile
  formality : DimensionProfile
deriving DecidableEq

def locLe (x y : Location) : Bool :=
  x.chapter < y.chapter || (x.chapter == y.chapter && x.paragraph ≤ y.paragraph)

/-- Representative-quote ordering: longest line first, ties broken by the
earliest Location (the spec's determinism tie-break). -/
def quoteBefore (a b : DialogueSpan) : Bool :=
  b.text.length < a.text.length ||
    (b.text.length == a.text.length && locLe a.loc b.loc)

def insertSpanBy (a : DialogueSpan) : List DialogueSpan → List DialogueSpan
  | [] => [a]
  | b :: bs => if quoteBefore a b then a :: b :: bs else b :: insertSpanBy a bs

def sortSpans (l : List DialogueSpan) : List DialogueSpan :=
  l.foldr insertSpanBy []

/-- Modelled from the spec: up to 5 representative quotes, longest lines
with earliest-Location tie-break. -/
def repQuotes (ls : List DialogueSpan) : List (List Char) :=
  ((sortSpans ls).take 5).map (·.text)

/-- Modelled from the spec: per-dimension baselines computed purely from the
character's own dialogue set. -/
def buildProfile (ls : List DialogueSpan) : VoiceProfile :=
  let texts := ls.map (·.text)
  let qs := repQuotes ls
  { vocab := ⟨metricMean .vocabulary_level texts, qs⟩,
    sentence := ⟨metricMean .sentence_structure texts, qs⟩,
    tics := ⟨metricMean .verbal_tics texts, qs⟩,
    formality := ⟨metricMean .formality texts, qs⟩ }

/-! ## Consistency Scorer -/

/-- Modelled from the spec: candidate flags — for every attributed line of
every character with enough lines, a flag per dimension whose deviation from
the character's own baseline passes the threshold. -/
def candidateFlags (cfg : Config) (spans : List DialogueSpan)
    (names : List String) : List ConsistencyFlag :=
  names.flatMap (fun c =>
    let ls := spansFor spans c
    if ls.length < cfg.minLines then []
    else
      ls.flatMap (fun sp =>
        allDimensions.filterMap (fun d =>
          let b := metricMean d (ls.map (·.text))
          match severityFor (threshold cfg d) (absDev (metric d sp.text) b) with
          | some sev => some
              { id := 0, characterId := c, dimension := d, severity := sev,
                location := sp.loc, passage := String.mk sp.text,
                dismissed := false }
          | none => none)))

/-- The (character, Location, dimension) key of a flag. -/
def flagKey (f : ConsistencyFlag) : String × Nat × Nat × Nat :=
  (f.characterId, f.location.chapter, f.location.paragraph, f.dimension.idx)

/-- Modelled from the spec: a candidate flag is kept only when no flag with
the same (character, Location, dimension) key was already created. -/
def addFlag (acc : List ConsistencyFlag) (f : ConsistencyFlag) :
    List ConsistencyFlag :=
  if acc.any (fun g => flagKey g == flagKey f) then acc else acc ++ [f]

def dedupFlags (cands : List ConsistencyFlag) : List ConsistencyFlag :=
  cands.foldl addFlag []

def assignIdsFrom (n : Nat) : List ConsistencyFlag → List ConsistencyFlag
  | [] => []
  | f :: fs => { f with id := n } :: assignIdsFrom (n + 1) fs

def assignIds (l : List ConsistencyFlag) : List ConsistencyFlag :=
  assignIdsFrom 0 l

/-- Modelled from the spec: the Scorer's flag set for one analysis run —
thresholded candidates, deduplicated per key, with sequential ids. -/
def buildFlags (cfg : Config) (spans : List DialogueSpan)
    (names : List String) : List ConsistencyFlag :=
  assignIds (dedupFlags (candidateFlags cfg spans names))

/-- Modelled from the spec: a `Character` record — unique id, an optional
VoiceProfile (none below the minimum-lines threshold, per
InsufficientDialogueError), and the derived consistency Score. -/
structure CharacterRecord where
  id : String
  profile : Option VoiceProfile
  charScore : Int
deriving DecidableEq

def buildCharacters (cfg : Config) (spans : List DialogueSpan)
    (names : List String) (flags : List ConsistencyFlag) :
    List CharacterRecord :=
  names.map (fun c =>
    let ls := spansFor spans c
    { id := c,
      profile := if ls.length < cfg.minLines then none else some (buildProfile ls),
      charScore := score flags c })

/-! ## The analyze entry point -/

/-- Modelled from the spec: the full result set returned by `analyze`. -/
structure AnalysisResult where
  characters : List CharacterRecord
  spans : List DialogueSpan
  flags : List ConsistencyFlag
deriving DecidableEq

/-- Modelled from the spec: error kinds — an empty manuscript after
trimming whitespace is rejected with an EmptyInputError. -/
inductive EngineError where
  | EmptyInputError
deriving DecidableEq

/-- Modelled from the spec: the Segmenter rejects input that is empty after
trimming whitespace with an EmptyInputError, otherwise segments it. -/
def segment (s : String) : Except EngineError (List Paragraph) :=
  if isBlank s.data then .error .EmptyInputError
  else .ok (paragraphsOf s.data)

/-- Runs the Resolver/Extractor, Profiler and Scorer stages over segmented
paragraphs. -/
def analyzeParas (cfg : Config) (ps : List Paragraph) : AnalysisResult :=
  let spans := attributeParas 0 none ps
  let names := (spanSpeakers spans).dedup
  let flags := buildFlags cfg spans names
  { characters := buildCharacters cfg spans names flags,
    spans := spans, flags := flags }

/-- Modelled from the spec: `analyze(manuscript_text)` runs all five stages
under a configuration and returns the full result set. -/
def analyzeWith (cfg : Config) (s : String) :
    Except EngineError AnalysisResult :=
  match segment s with
  | .error e => .error e
  | .ok ps => .ok (analyzeParas cfg ps)

def analyze (s : String) : Except EngineError AnalysisResult :=
  analyzeWith defaultConfig s

/-- The Score of a character in a result set, read off its record. -/
def scoreOf (r : AnalysisResult) (c : String) : Int :=
  match r.characters.find? (fun ch => ch.id == c) with
  | some ch => ch.charScore
  | none => 0

/-- Modelled from the spec: the relational (input/output) presentation of
the five-stage pipeline, one premise per stage, indexed by the engine
configuration; used to state that analyze is deterministic given the same
input text and configuration. -/
inductive AnalyzeRel : Config → String → Except EngineError AnalysisResult → Prop where
  | empty (cfg : Config) (s : String) (h : isBlank s.data = true) :
      AnalyzeRel cfg s (Except.error EngineError.EmptyInputError)
  | run (cfg : Config) (s : String) (ps : List Paragraph)
      (spans : List DialogueSpan)
      (names : List String) (flags : List ConsistencyFlag)
      (chars : List CharacterRecord)
      (hblank : isBlank s.data = false)
      (hps : ps = paragraphsOf s.data)
      (hspans : spans = attributeParas 0 none ps)
      (hnames : names = (spanSpeakers spans).dedup)
      (hflags : flags = buildFlags cfg spans names)
      (hchars : chars = buildCharacters cfg spans names flags) :
      AnalyzeRel cfg s (Except.ok ⟨chars, spans, flags⟩)

/-! ## Concrete inputs used by witnesses and the end-to-end claim -/

/-- The three-character test manuscript of the repository's end-to-end test
(apostrophes written as a tilde placeholder, substituted below). -/
def rawManuscript : String :=
"Chapter 1

\"I can~t believe you~re here,\" Sarah said, her hands trembling.

John smiled. \"I wouldn~t miss this for the world.\"

\"But what about the danger?\" asked Michael, stepping forward.

\"Danger is my business,\" John replied with a wink.

Chapter 2

The morning sun cast long shadows across the room. Sarah paced nervously.

\"You worry too much,\" John said, leaning against the wall.

\"Someone has to worry!\" Sarah exclaimed.

Michael nodded. \"She~s right, you know. We need a plan.\"

John laughed. \"Where~s your sense of adventure?\"

Chapter 3

\"I have a bad feeling about this,\" Sarah whispered.

\"Don~t be silly,\" John replied. \"Everything will be fine.\"

Michael checked his watch. \"We should go. Now.\"

\"Agreed,\" John said. \"Let~s move.\"

Sarah took a deep breath. \"Okay. I~m ready.\"

\"Yo what~s up dudes?\" John said suddenly. \"This is totally rad!\"
"

def testManuscript : String :=
  String.mk (rawManuscript.data.map (fun c => if c == '~' then apos else c))

/-- A one-paragraph manuscript used by witnesses. -/
def miniText : String := "\"Hello there,\" Alice said."

/-- The analysis result for `miniText`. -/
def miniResult : AnalysisResult :=
  match analyze miniText with
  | .ok r => r
  | .error _ => ⟨[], [], []⟩

/-- A non-default configuration used by the C7 witness, showing the
determinism theorem applies at any configuration. -/
def altConfig : Config :=
  { minLines := 2, vocabThreshold := 15, sentenceThreshold := 20,
    ticsThreshold := 25, formalityThreshold := 10 }

/-- Concrete flag set used by witnesses. -/
def sampleFlags : List ConsistencyFlag :=
  [{ id := 0, characterId := "John", dimension := .formality,
     severity := .high, location := ⟨2, 5⟩, passage := "Yo what is up",
     dismissed := false },
   { id := 1, characterId := "Sarah", dimension := .verbal_tics,
     severity := .low, location := ⟨0, 1⟩, passage := "Well, maybe",
     dismissed := false }]

/-! ## Basic lemmas about the scoring layer -/

theorem penalty_nil (c : String) : penalty [] c = 0 := rfl

theorem penalty_cons (f : ConsistencyFlag) (fs : List ConsistencyFlag) (c : String) :
    penalty (f :: fs) c =
      (if flagActiveFor c f then f.severity.weight else 0) + penalty fs c := by
  by_cases h : flagActiveFor c f = true
  · simp [penalty, List.filter, h]
  · simp [penalty, List.filter, h]

theorem score_nonneg (flags : List ConsistencyFlag) (c : String) :
    0 ≤ score flags c :=
  le_max_right _ _

theorem score_le_100 (flags : List ConsistencyFlag) (c : String) :
    score flags c ≤ 100 := by
  have h : (0 : Int) ≤ (penalty flags c : Int) := Int.natCast_nonneg _
  exact max_le (by linarith) (by norm_num)

theorem setDismissed_id_stable (flags : List ConsistencyFlag) (fid : Nat) (b : Bool)
    (f : ConsistencyFlag) (hf : f ∈ setDismissed flags fid b) :
    ∃ g ∈ flags, f = if g.id == fid then { g with dismissed := b } else g := by
  simp only [setDismissed, List.mem_map] at hf
  obtain ⟨g, hg, rfl⟩ := hf
  exact ⟨g, hg, rfl⟩

theorem setDismissed_setDismissed (flags : List ConsistencyFlag) (fid : Nat)
    (b b' : Bool) :
    setDismissed (setDismissed flags fid b) fid b' = setDismissed flags fid b' := by
  simp only [setDismissed, List.map_map]
  refine List.map_congr_left ?_
  intro a _
  by_cases h : a.id == fid
  · simp [Function.comp, h]
  · simp [Function.comp, h]

theorem setDismissed_restore (flags : List ConsistencyFlag) (fid : Nat) (d : Bool)
    (h : ∀ f ∈ flags, f.id = fid → f.dismissed = d) :
    setDismissed flags fid d = flags := by
  induction flags with
  | nil => rfl
  | cons f fs ih =>
      have tl : setDismissed fs fid d = fs :=
        ih (fun g hg hgid => h g (List.mem_cons_of_mem f hg) hgid)
      simp only [setDismissed, List.map_cons] at tl ⊢
      rw [tl]
      by_cases hid : f.id == fid
      · have hd : f.dismissed = d := h f (List.mem_cons_self f fs) (by simpa using hid)
        simp [hid, ← hd]
      · simp [hid]

theorem penalty_setDismissed_true_le (flags : List ConsistencyFlag) (fid : Nat)
    (c : String) :
    penalty (setDismissed flags fid true) c ≤ penalty flags c := by
  induction flags with
  | nil => simp [setDismissed]
  | cons f fs ih =>
      simp only [setDismissed, List.map_cons] at *
      rw [penalty_cons, penalty_cons]
      by_cases hid : f.id == fid
      · simp only [hid, if_true]
        have : flagActiveFor c { f with dismissed := true } = false := by
          simp [flagActiveFor]
        rw [this]
        simp only [Bool.false_eq_true, if_false, zero_add]
        exact le_add_of_nonneg_of_le (Nat.zero_le _) ih
      · simp only [hid, Bool.false_eq_true, if_false]
        exact Nat.add_le_add_left ih _

/-! ## Claims about the Score formula and dismissal behaviour -/

/-- C1.  For every character, the consistency Score equals 100 minus the sum
of per-severity weights (low=2, medium=5, high=10) over exactly that
character's flags with `dismissed = false`, clamped at 0. -/
theorem score_formula_C1 (flags : List ConsistencyFlag) (c : String) :
    score flags c =
      max ((100 : Int) -
        ((flags.filter (fun f => f.characterId == c && !f.dismissed)).map
          (fun f => (f.severity.weight : Int))).sum) 0 := by
  have key : ∀ l : List ConsistencyFlag,
      ((l.foldr (fun f acc => f.severity.weight + acc) 0 : Nat) : Int) =
        (l.map (fun f => (f.severity.weight : Int))).sum := by
    intro l
    induction l with
    | nil => simp
    | cons f fs ih => simp [List.foldr_cons, ih]
  simp only [score, penalty]
  rw [key]
  rfl

/-- C2.  Dismissing every flag of a character yields a Score of exactly 100
(no special case for the all-dismissed condition: the equality is proved from
the generic formula for arbitrary flag sets), and recomputing with zero flags
dismissed reproduces the originally computed Score. -/
theorem dismiss_all_score_100_C2 (flags : List ConsistencyFlag) (c : String) :
    score (dismissAllFor flags c) c = 100 ∧
      score (applyToggles [] flags) c = score flags c := by
  constructor
  · have hpen : penalty (dismissAllFor flags c) c = 0 := by
      induction flags with
      | nil => rfl
      | cons f fs ih =>
          simp only [dismissAllFor, List.map_cons] at ih ⊢
          rw [penalty_cons, ih]
          by_cases hc : f.characterId == c
          · rw [if_pos hc]
            simp [flagActiveFor]
          · rw [if_neg hc]
            simp [flagActiveFor, hc]
    simp [score, hpen]
  · rfl

/-- C3.  After the initial analysis and after any sequence of
dismiss/undismiss toggles, every character's Score lies in [0, 100]. -/
theorem score_bounds_C3 (toggles : List (Nat × Bool))
    (flags : List ConsistencyFlag) (c : String) :
    0 ≤ score (applyToggles toggles flags) c ∧
      score (applyToggles toggles flags) c ≤ 100 :=
  ⟨score_nonneg _ _, score_le_100 _ _⟩

/-- C4.  Score recomputation is a pure function of the flag set's dismissed
states: repeating a dismiss toggle with unchanged state is a no-op for the
returned Score, and toggling a flag's dismissed state away from and then back
to its original value returns the character's Score to its original value. -/
theorem score_recompute_pure_C4 (flags : List ConsistencyFlag) (fid : Nat)
    (b d : Bool) (c : String)
    (h : ∀ f ∈ flags, f.id = fid → f.dismissed = d) :
    dismiss_flag (setDismissed flags fid b) fid b c = dismiss_flag flags fid b c ∧
      score (setDismissed (setDismissed flags fid b) fid d) c = score flags c := by
  constructor
  · simp [dismiss_flag, setDismissed_setDismissed]
  · rw [setDismissed_setDismissed, setDismissed_restore flags fid d h]

/-- C10.  Dismissing a flag is monotone: `dismiss_flag(fid, true)` returns a
Score greater than or equal to the character's Score before the call. -/
theorem dismiss_monotone_C10 (flags : List ConsistencyFlag) (fid : Nat)
    (c : String) :
    score flags c ≤ (dismiss_flag flags fid true c).2 := by
  have hpen := penalty_setDismissed_true_le flags fid c
  have : ((penalty (setDismissed flags fid true) c : Nat) : Int) ≤
      (penalty flags c : Int) := by exact_mod_cast hpen
  exact max_le_max (by linarith) le_rfl

/-! ## Lemmas about the pipeline -/

theorem mem_spanSpeakers {spans : List DialogueSpan} {sp : DialogueSpan}
    {c : String} (h1 : sp ∈ spans) (h2 : sp.speaker = Speaker.character c) :
    c ∈ spanSpeakers spans := by
  simp only [spanSpeakers, List.mem_filterMap]
  exact ⟨sp, h1, by rw [h2]⟩

theorem analyze_ok_eq {s : String} {r : AnalysisResult}
    (h : analyze s = Except.ok r) :
    isBlank s.data = false ∧ r = analyzeParas defaultConfig (paragraphsOf s.data) := by
  by_cases hb : isBlank s.data = true
  · simp [analyze, analyzeWith, segment, hb] at h
  · have hb' : isBlank s.data = false := by simpa using hb
    refine ⟨hb', ?_⟩
    simp only [analyze, analyzeWith, segment, hb', Bool.false_eq_true,
      if_false] at h
    exact (Except.ok.injEq _ _ ▸ h).symm

theorem analyzeRel_analyzeWith (cfg : Config) (s : String) :
    AnalyzeRel cfg s (analyzeWith cfg s) := by
  by_cases hb : isBlank s.data = true
  · have he : analyzeWith cfg s = Except.error EngineError.EmptyInputError := by
      simp [analyzeWith, segment, hb]
    rw [he]
    exact AnalyzeRel.empty cfg s hb
  · have hb' : isBlank s.data = false := by simpa using hb
    have he : analyzeWith cfg s =
        Except.ok (analyzeParas cfg (paragraphsOf s.data)) := by
      simp [analyzeWith, segment, hb']
    rw [he]
    exact AnalyzeRel.run cfg s (paragraphsOf s.data)
      (attributeParas 0 none (paragraphsOf s.data))
      ((spanSpeakers (attributeParas 0 none (paragraphsOf s.data))).dedup)
      (buildFlags cfg (attributeParas 0 none (paragraphsOf s.data))
        ((spanSpeakers (attributeParas 0 none (paragraphsOf s.data))).dedup))
      (buildCharacters cfg
        (attributeParas 0 none (paragraphsOf s.data))
        ((spanSpeakers (attributeParas 0 none (paragraphsOf s.data))).dedup)
        (buildFlags cfg (attributeParas 0 none (paragraphsOf s.data))
          ((spanSpeakers (attributeParas 0 none (paragraphsOf s.data))).dedup)))
      hb' rfl rfl rfl rfl rfl

theorem analyzeRel_analyze (s : String) :
    AnalyzeRel defaultConfig s (analyze s) :=
  analyzeRel_analyzeWith defaultConfig s

theorem addFlag_keys_nodup (acc : List ConsistencyFlag) (f : ConsistencyFlag)
    (h : (acc.map flagKey).Nodup) : ((addFlag acc f).map flagKey).Nodup := by
  unfold addFlag
  by_cases hc : acc.any (fun g => flagKey g == flagKey f) = true
  · simpa [hc] using h
  · rw [if_neg (by simpa using hc)]
    have hnot : flagKey f ∉ acc.map flagKey := by
      intro hmem
      obtain ⟨g, hg, hkey⟩ := List.mem_map.mp hmem
      have : acc.any (fun g => flagKey g == flagKey f) = true :=
        List.any_eq_true.mpr ⟨g, hg, by simp [hkey]⟩
      exact hc this
    have : (acc ++ [f]).map flagKey = (acc.map flagKey).concat (flagKey f) := by
      simp
    rw [this]
    exact List.Nodup.concat hnot h

theorem foldl_addFlag_keys_nodup (cands : List ConsistencyFlag) :
    ∀ acc : List ConsistencyFlag, (acc.map flagKey).Nodup →
      ((cands.foldl addFlag acc).map flagKey).Nodup := by
  induction cands with
  | nil => intro acc h; simpa using h
  | cons f fs ih =>
      intro acc h
      exact ih _ (addFlag_keys_nodup acc f h)

theorem dedupFlags_keys_nodup (cands : List ConsistencyFlag) :
    ((dedupFlags cands).map flagKey).Nodup :=
  foldl_addFlag_keys_nodup cands [] (by simp)

theorem assignIdsFrom_keys (l : List ConsistencyFlag) :
    ∀ n, (assignIdsFrom n l).map flagKey = l.map flagKey := by
  induction l with
  | nil => intro n; rfl
  | cons f fs ih =>
      intro n
      simp only [assignIdsFrom, List.map_cons, ih]
      rfl

theorem buildFlags_keys_nodup (cfg : Config) (spans : List DialogueSpan)
    (names : List String) :
    ((buildFlags cfg spans names).map flagKey).Nodup := by
  rw [buildFlags, assignIds, assignIdsFrom_keys]
  exact dedupFlags_keys_nodup _

theorem setDismissed_fields (flags : List ConsistencyFlag) (fid : Nat) (b : Bool)
    (f' : ConsistencyFlag) (h : f' ∈ setDismissed flags fid b) :
    ∃ f ∈ flags, f'.id = f.id ∧ f'.characterId = f.characterId ∧
      f'.dimension = f.dimension ∧ f'.severity = f.severity ∧
      f'.location = f.location ∧ f'.passage = f.passage := by
  obtain ⟨g, hg, hf⟩ := setDismissed_id_stable flags fid b f' h
  refine ⟨g, hg, ?_⟩
  by_cases hid : g.id == fid
  · rw [if_pos hid] at hf
    subst hf
    exact ⟨rfl, rfl, rfl, rfl, rfl, rfl⟩
  · rw [if_neg hid] at hf
    subst hf
    exact ⟨rfl, rfl, rfl, rfl, rfl, rfl⟩

/-! ## Claims about the pipeline -/

/-- C5.  Every DialogueSpan in an accepted analysis result has a speaker
that is either a Character id present in the returned registry or the
explicit value "unresolved" — never a dangling reference. -/
theorem speaker_valid_C5 (s : String) (r : AnalysisResult)
    (h : analyze s = Except.ok r) :
    ∀ sp ∈ r.spans, sp.speaker = Speaker.unresolved ∨
      ∃ ch ∈ r.characters, sp.speaker = Speaker.character ch.id := by
  obtain ⟨hb, rfl⟩ := analyze_ok_eq h
  intro sp hsp
  cases hspk : sp.speaker with
  | unresolved => exact Or.inl rfl
  | character c =>
      right
      have hc : c ∈ spanSpeakers (attributeParas 0 none (paragraphsOf s.data)) :=
        mem_spanSpeakers hsp hspk
      have hc' : c ∈ (spanSpeakers (attributeParas 0 none (paragraphsOf s.data))).dedup :=
        List.mem_dedup.mpr hc
      exact ⟨_, List.mem_map_of_mem _ hc', rfl⟩

/-- C6.  Input that is empty after trimming whitespace (every character is
whitespace) is rejected by the Segmenter, and hence by analyze, with an
EmptyInputError. -/
theorem empty_input_C6 (s : String) (h : isBlank s.data = true) :
    segment s = Except.error EngineError.EmptyInputError ∧
      analyze s = Except.error EngineError.EmptyInputError := by
  constructor
  · simp [segment, h]
  · simp [analyze, analyzeWith, segment, h]

/-- Witness for C6: a whitespace-only manuscript satisfies the hypothesis
and is rejected. -/
theorem empty_input_C6_witness :
    isBlank ("  \n\t ").data = true ∧
      (segment ("  \n\t ") = Except.error EngineError.EmptyInputError ∧
        analyze ("  \n\t ") = Except.error EngineError.EmptyInputError) :=
  ⟨by decide, empty_input_C6 ("  \n\t ") (by decide)⟩

/-- C7.  analyze is deterministic given the same input text and
configuration: for every configuration, any two results related to the same
manuscript text by the pipeline relation are equal. -/
theorem analyze_deterministic_C7 (cfg : Config) (s : String)
    (r₁ r₂ : Except EngineError AnalysisResult)
    (h₁ : AnalyzeRel cfg s r₁) (h₂ : AnalyzeRel cfg s r₂) : r₁ = r₂ := by
  cases h₁ with
  | empty hb₁ =>
      cases h₂ with
      | empty _ => rfl
      | run _ _ _ _ _ hb₂ _ _ _ _ _ =>
          rw [hb₁] at hb₂
          simp at hb₂
  | run ps₁ spans₁ names₁ flags₁ chars₁ hb₁ hps₁ hspans₁ hnames₁ hflags₁ hchars₁ =>
      cases h₂ with
      | empty hb₂ =>
          rw [hb₂] at hb₁
          simp at hb₁
      | run ps₂ spans₂ names₂ flags₂ chars₂ hb₂ hps₂ hspans₂ hnames₂ hflags₂ hchars₂ =>
          subst hps₁
          subst hps₂
          subst hspans₁
          subst hspans₂
          subst hnames₁
          subst hnames₂
          subst hflags₁
          subst hflags₂
          subst hchars₁
          subst hchars₂
          rfl

/-- Witness for C7: both hypotheses hold of the run on the concrete
mini-manuscript at a concrete non-default configuration, and the two
related results coincide. -/
theorem analyze_deterministic_C7_witness :
    AnalyzeRel altConfig miniText (analyzeWith altConfig miniText) ∧
      analyzeWith altConfig miniText = analyzeWith altConfig miniText :=
  ⟨analyzeRel_analyzeWith altConfig miniText,
    analyze_deterministic_C7 altConfig miniText _ _
      (analyzeRel_analyzeWith altConfig miniText)
      (analyzeRel_analyzeWith altConfig miniText)⟩

/-- C8.  Within one analysis run the Scorer creates at most one flag per
(character, Location, dimension) key, and the dismissal toggle is the only
mutation: it preserves every other field of every flag. -/
theorem flags_unique_C8 (s : String) (r : AnalysisResult)
    (h : analyze s = Except.ok r) :
    ((r.flags.map flagKey).Nodup) ∧
      ∀ fid b, ∀ f' ∈ setDismissed r.flags fid b,
        ∃ f ∈ r.flags, f'.id = f.id ∧ f'.characterId = f.characterId ∧
          f'.dimension = f.dimension ∧ f'.severity = f.severity ∧
          f'.location = f.location ∧ f'.passage = f.passage := by
  obtain ⟨hb, rfl⟩ := analyze_ok_eq h
  exact ⟨buildFlags_keys_nodup _ _ _,
    fun fid b f' hf' => setDismissed_fields _ fid b f' hf'⟩

/-- Witness for C8: the hypothesis holds of the concrete mini-manuscript
(analyze returns its result), and the conclusion follows there. -/
theorem flags_unique_C8_witness :
    analyze miniText = Except.ok miniResult ∧
      (((miniResult.flags.map flagKey).Nodup) ∧
        ∀ fid b, ∀ f' ∈ setDismissed miniResult.flags fid b,
          ∃ f ∈ miniResult.flags, f'.id = f.id ∧ f'.characterId = f.characterId ∧
            f'.dimension = f.dimension ∧ f'.severity = f.severity ∧
            f'.location = f.location ∧ f'.passage = f.passage) :=
  ⟨rfl, flags_unique_C8 miniText miniResult rfl⟩

/-- Witness for C5: the hypothesis holds of the concrete mini-manuscript,
and every span's speaker there is a registry id or unresolved. -/
theorem speaker_valid_C5_witness :
    analyze miniText = Except.ok miniResult ∧
      (∀ sp ∈ miniResult.spans, sp.speaker = Speaker.unresolved ∨
        ∃ ch ∈ miniResult.characters, sp.speaker = Speaker.character ch.id) :=
  ⟨rfl, speaker_valid_C5 miniText miniResult rfl⟩

/-- C9.  On the three-character test manuscript in which John has one
jarringly out-of-register line amid otherwise formal dialogue, analyze
returns exactly 3 Characters, at least one flag on John in dimension
formality or vocabulary_level, and John's Score strictly below both Sarah's
and Michael's. -/
theorem john_flagged_C9 :
    ∃ r : AnalysisResult, analyze testManuscript = Except.ok r ∧
      r.characters.length = 3 ∧
      (r.flags.any (fun f => f.characterId == "John" &&
        (decide (f.dimension = Dimension.formality) ||
          decide (f.dimension = Dimension.vocabulary_level)))) = true ∧
      scoreOf r "John" < scoreOf r "Sarah" ∧
      scoreOf r "John" < scoreOf r "Michael" := by
  refine ⟨_, rfl, ?_, ?_, ?_, ?_⟩ <;> decide

/-- Witness for C4 at a concrete flag set: the hypothesis (every flag with
id 0 is currently undismissed) holds, and the conclusion follows by applying
the theorem there. -/
theorem score_recompute_pure_C4_witness :
    (∀ f ∈ sampleFlags, f.id = 0 → f.dismissed = false) ∧
      (dismiss_flag (setDismissed sampleFlags 0 true) 0 true "John" =
          dismiss_flag sampleFlags 0 true "John" ∧
        score (setDismissed (setDismissed sampleFlags 0 true) 0 false) "John" =
          score sampleFlags "John") :=
  ⟨by decide, score_recompute_pure_C4 sampleFlags 0 true false "John" (by decide)⟩

end VoiceCheck
